import Mathlib

/-!
Verification of the `fast-api-test` repository: a shallow embedding, in Lean 4,
of the version-ordering, workspace-validation, directory-scoping and
confirmation-gating logic of `src/main.py` and `src/task2/tasks/*.py`,
together with proofs of the specification's claims about them.

Python strings are modelled as lists of characters (`PyStr`).  Python
functions that can raise are modelled with `Option`/`Except`.  External
process invocations and filesystem mutations are modelled as explicit
effect traces; an uncaught Python exception is an `Except.error` value,
which the `invoke` task runner turns into a non-zero process exit.
-/

namespace FastApiTest

/-! ### Embedded definitions -/

/-- Python strings, modelled as lists of characters. -/
abbrev PyStr := List Char

/-- Coerce a Lean string literal into the model type. -/
def pstr (s : String) : PyStr := s.toList

/-- Model of Python `str.split(sep)` for a one-character separator:
auxiliary returning the first field and the remaining fields. -/
def splitCharAux (sep : Char) : PyStr → PyStr × List PyStr
  | [] => ([], [])
  | c :: cs =>
    let r := splitCharAux sep cs
    if c = sep then ([], r.1 :: r.2) else (c :: r.1, r.2)

/-- Model of Python `str.split(sep)` for a one-character separator.
`splitChar '.' "a.b"` is `["a", "b"]`; the empty string splits to `[""]`. -/
def splitChar (sep : Char) (s : PyStr) : List PyStr :=
  (splitCharAux sep s).1 :: (splitCharAux sep s).2

/-- Inverse of `splitChar`: joins fields with the separator. -/
def joinParts (sep : Char) : List PyStr → PyStr
  | [] => []
  | [x] => x
  | x :: y :: zs => x ++ sep :: joinParts sep (y :: zs)

/-- Numeric value of a character under Python's decimal-digit
classification (Unicode category Nd, the characters `int` converts), on
the fragment of Unicode modelled here: the ASCII digits `'0'`–`'9'` and,
as representatives of the non-ASCII Nd characters, the Arabic-Indic
digits U+0660–U+0669.  Python classifies further Nd characters the same
way; no theorem below depends on a character outside this fragment not
being decimal. -/
def pyDecimalVal (c : Char) : Option Nat :=
  if c.isDigit then some (c.toNat - '0'.toNat)
  else if 0x660 ≤ c.toNat ∧ c.toNat ≤ 0x669 then some (c.toNat - 0x660)
  else none

/-- Per-character test of Python `str.isdigit` (true on Numeric_Type
Decimal or Digit), on the fragment of Unicode modelled here: the decimal
digits of `pyDecimalVal` plus, as representatives of the digit characters
`int` nevertheless rejects, the superscript digits `'¹'`, `'²'`, `'³'`.
Python accepts further Unicode digit characters, so every theorem below
that depends on a character not being a digit quantifies only over ASCII
strings, where this model is exact. -/
def pyCharIsDigit (c : Char) : Bool :=
  (pyDecimalVal c).isSome || c == '¹' || c == '²' || c == '³'

/-- Model of Python `str.isdigit`: true iff the string is non-empty and
every character passes `pyCharIsDigit`. -/
def isdigit (s : PyStr) : Bool := !s.isEmpty && s.all pyCharIsDigit

/-- Numeric value of one decimal-digit character (0 on non-decimal
characters, where `pyInt` never uses it). -/
def digitVal (c : Char) : Nat := (pyDecimalVal c).getD 0

/-- Left fold accumulating the base-10 value of a decimal string, exactly
the way Python `int` consumes one. -/
def digitsVal (s : PyStr) : Nat := s.foldl (fun a c => 10 * a + digitVal c) 0

/-- Model of Python `int(s)` on the strings arising from version parsing:
succeeds with the base-10 value on a non-empty string of decimal (Nd)
characters, and models the `ValueError` raised on anything else — notably
the superscript digits, which pass `str.isdigit` but are not decimal — as
`none`.  (The sign, whitespace, and underscore forms `int` also accepts
never arise here and no theorem depends on them.) -/
def pyInt (s : PyStr) : Option Nat :=
  if !s.isEmpty && s.all (fun c => (pyDecimalVal c).isSome) then some (digitsVal s)
  else none

/-- Embedding of `validate_version` (container.py lines 13–23): the string
must start with the literal `"v"`, the remainder must split on `'.'` into
exactly three fields, and every field must pass `isdigit`. -/
def validate_version (version : PyStr) : Bool :=
  if !(pstr "v").isPrefixOf version then false
  else
    let v := version.drop 1
    let version_str_tuple := splitChar '.' v
    if version_str_tuple.length ≠ 3 then false
    else version_str_tuple.all isdigit

/-- Embedding of `parse_tag` (container.py lines 26–29): drop the leading
`"v"`, split the rest on `'.'`, and convert each field with `int`; a field
`int` rejects makes the whole call raise, modelled as `none`. -/
def parse_tag (tag : PyStr) : Option (List Nat) :=
  (splitChar '.' (tag.drop 1)).mapM pyInt

/-- Specification-side predicate (from the spec's words, for claim C3):
a non-empty string of decimal digits. -/
def DigitSeg (x : PyStr) : Prop := x ≠ [] ∧ ∀ c ∈ x, c.isDigit = true

/-- Specification-side predicate (from the spec's words, for claim C3):
the shape `v<digits>.<digits>.<digits>`. -/
def SpecVersionShape (s : PyStr) : Prop :=
  ∃ x y z : PyStr, DigitSeg x ∧ DigitSeg y ∧ DigitSeg z ∧
    s = 'v' :: (x ++ '.' :: (y ++ '.' :: z))

/-- Specification-side value of one ASCII decimal digit. -/
def decDigitVal (c : Char) : Nat := c.toNat - '0'.toNat

/-- Specification-side decimal denotation of an ASCII digit string, most
significant digit first. -/
def decVal (s : PyStr) : Nat := Nat.ofDigits 10 ((s.map decDigitVal).reverse)

instance {ε α : Type} [DecidableEq ε] [DecidableEq α] : DecidableEq (Except ε α) :=
  fun x y =>
    match x, y with
    | .ok a, .ok b => decidable_of_iff (a = b) ⟨fun h => by rw [h], Except.ok.inj⟩
    | .error e, .error f => decidable_of_iff (e = f) ⟨fun h => by rw [h], Except.error.inj⟩
    | .ok _, .error _ => isFalse fun h => Except.noConfusion h
    | .error _, .ok _ => isFalse fun h => Except.noConfusion h

/-- External calls made by the publishing tail of `push`: the ECR login,
the `docker tag`, and the `docker push`. -/
inductive EcrCall
  | ecrLogin
  | dockerTag
  | dockerPush
  deriving DecidableEq

/-- Observable outcome of a task that returned normally: the process exit
code the `invoke` runner produces for a normal return, the external calls
made, and whether the final success message was reached. -/
structure TaskRun where
  exitCode : Nat
  calls : List EcrCall
  published : Bool
  deriving DecidableEq

/-- Python exceptions raised inside `get_last_version`. -/
inductive PyError
  | valueError
  | indexError
  deriving DecidableEq

/-- One entry of the registry's `imageDetails` list: its (possibly empty)
list of image tags.  An absent `imageTags` key is modelled by `[]`, which
Python's `image.get("imageTags")` treats the same way (falsy). -/
structure ImageDetail where
  imageTags : List PyStr
  deriving DecidableEq

/-- Model of Python's `<=` on tuples of integers: lexicographic, with a
proper prefix comparing below any extension. -/
def pyTupleLe : List Nat → List Nat → Bool
  | [], _ => true
  | _ :: _, [] => false
  | a :: as, b :: bs =>
    if a < b then true
    else if b < a then false
    else pyTupleLe as bs

/-- Insertion step for the model of Python's `list.sort` on version tuples. -/
def insertTuple (v : List Nat) : List (List Nat) → List (List Nat)
  | [] => [v]
  | w :: ws => if pyTupleLe v w then v :: w :: ws else w :: insertTuple v ws

/-- Model of Python's `list.sort` on version tuples: insertion sort under
the same tuple order (ascending). -/
def sortTuples : List (List Nat) → List (List Nat)
  | [] => []
  | v :: vs => insertTuple v (sortTuples vs)

/-- Embedding of `get_last_version` (container.py lines 32–43),
parametrized by the registry's image list (the `describe_images`
response).  The `image.get("imageTags")` guard keeps only images with a
non-empty tag list; `int` failing on a malformed tag is the `ValueError`
case, and evaluating `version_list[-1]` on an empty list is the
`IndexError` case. -/
def get_last_version (image_list : List ImageDetail) :
    Except PyError (Option (List Nat)) :=
  if image_list.isEmpty then .ok none
  else
    let tag_list := image_list.filterMap fun image => image.imageTags.head?
    match tag_list.mapM parse_tag with
    | none => .error .valueError
    | some version_list =>
      match (sortTuples version_list).getLast? with
      | none => .error .indexError
      | some last => .ok (some last)

/-- A raised exception escaping the `push` task: the version-format
assertion, or an exception propagating out of `get_last_version`.  The
`invoke` runner turns either into a non-zero process exit. -/
inductive PushAbort
  | assertionError
  | uncaught (e : PyError)
  deriving DecidableEq

/-- The three external calls of the publishing tail of `push`, in order. -/
def publishCalls : List EcrCall := [.ecrLogin, .dockerTag, .dockerPush]

/-- Embedding of `push` (container.py lines 138–167): assert the version
format, parse the requested tag, query the last published version; if a
last version exists and the request is `<=` it, print an error and return
normally with no external calls; otherwise log in, tag and push. -/
def push (version : PyStr) (image_list : List ImageDetail) :
    Except PushAbort TaskRun :=
  if !validate_version version then .error .assertionError
  else
    match parse_tag version with
    | none => .error (.uncaught .valueError)
    | some version_to_push =>
      match get_last_version image_list with
      | .error e => .error (.uncaught e)
      | .ok last_version =>
        match last_version with
        | some lv =>
          if pyTupleLe version_to_push lv then .ok ⟨0, [], false⟩
          else .ok ⟨0, publishCalls, true⟩
        | none => .ok ⟨0, publishCalls, true⟩

/-- Specification-side strict lexicographic order on version triples: the
spec's "strictly greater under tuple order". -/
def specLexGt (v w : Nat × Nat × Nat) : Prop :=
  w.1 < v.1 ∨ (v.1 = w.1 ∧ (w.2.1 < v.2.1 ∨ (v.2.1 = w.2.1 ∧ w.2.2 < v.2.2)))

instance (v w : Nat × Nat × Nat) : Decidable (specLexGt v w) := by
  unfold specLexGt
  exact inferInstance

/-- Observable effect of a terraform task: the `ensure_symlink` filesystem
mutation (unlink plus `symlink_to`), or an external-process invocation
through `ctx.run`. -/
inductive TfEff
  | symlinkWrite
  | runCmd (cmd : PyStr)
  deriving DecidableEq

/-- Outcome of a terraform task: the process exit code (0 for a normal
return, 1 for `sys.exit(1)` or an uncaught `SystemExit`) and the attempted
effects, in order. -/
structure TfRun where
  exitCode : Nat
  effects : List TfEff
  deriving DecidableEq

/-- Embedding of the `Workspace` enum's `values()` (terraform.py
lines 13–20). -/
def Workspace.values : List PyStr := [pstr "dev", pstr "staging", pstr "production"]

/-- Embedding of the membership test of `is_valid_workspace` (terraform.py
lines 23–29); the source exits the process with code 1 when this is false,
which the task embeddings below model at the call sites. -/
def is_valid_workspace (workspace : PyStr) : Bool :=
  Workspace.values.contains workspace

/-- Model of Python `str.splitlines` for `'\n'`-separated output: the
empty string yields no lines, and a trailing newline adds no empty line. -/
def splitlines : PyStr → List PyStr
  | [] => []
  | c :: cs =>
    if c = '\n' then [] :: splitlines cs
    else
      match splitlines cs with
      | [] => [[c]]
      | t :: ts => (c :: t) :: ts

/-- Characters removed by Python `str.strip()` with no argument. -/
def isPyWs (c : Char) : Bool :=
  c = ' ' || c = '\t' || c = '\n' || c = '\r' || c = '\x0b' || c = '\x0c'

/-- Characters removed by `str.strip("* ")`. -/
def isStripMark (c : Char) : Bool := c = '*' || c = ' '

/-- Model of Python `str.strip(chars)`: removes characters satisfying `p`
from both ends. -/
def pyStripChars (p : Char → Bool) (s : PyStr) : PyStr :=
  ((s.dropWhile p).reverse.dropWhile p).reverse

/-- The per-line cleanup of `check_and_switch_workspace`:
`w.strip("* ").strip()`. -/
def stripWorkspaceLine (w : PyStr) : PyStr :=
  pyStripChars isPyWs (pyStripChars isStripMark w)

/-- The `terraform workspace list` command string. -/
def tfListCmd : PyStr := pstr "terraform workspace list"

/-- The `terraform workspace select {workspace}` command string. -/
def tfSelectCmd (workspace : PyStr) : PyStr :=
  pstr "terraform workspace select " ++ workspace

/-- The `{workspace}.tfvars` variable-file path, relative to the repository
root (the absolute `INFRA_DIR` base is host-dependent and irrelevant to
the claims). -/
def tfVarFile (workspace : PyStr) : PyStr :=
  pstr "infra/terraform/config/environment/" ++ workspace ++ pstr ".tfvars"

/-- The `{workspace}.secrets.tfvars` variable-file path. -/
def tfSecretsFile (workspace : PyStr) : PyStr :=
  pstr "infra/terraform/config/environment/" ++ workspace ++ pstr ".secrets.tfvars"

/-- The `terraform init` command built by `plan` (terraform.py
lines 109–121). -/
def tfInitCmd (reconfigure upgrade : Bool) : PyStr :=
  (pstr "terraform init" ++
    (if reconfigure then pstr " -reconfigure" else pstr " -migrate-state")) ++
    (if upgrade then pstr " -upgrade" else [])

/-- The `terraform plan` command string. -/
def tfPlanCmd (workspace : PyStr) : PyStr :=
  pstr "terraform plan -var-file=" ++ tfVarFile workspace ++
    pstr " -var-file=" ++ tfSecretsFile workspace

/-- The `terraform apply` command string. -/
def tfApplyCmd (workspace : PyStr) (auto_approve : Bool) : PyStr :=
  pstr "terraform apply -var-file=" ++ tfVarFile workspace ++
    pstr " -var-file=" ++ tfSecretsFile workspace ++
    (if auto_approve then pstr " -auto-approve" else [])

/-- The `terraform destroy` command string. -/
def tfDestroyCmd (workspace : PyStr) (auto_approve : Bool) : PyStr :=
  pstr "terraform destroy -var-file=" ++ tfVarFile workspace ++
    pstr " -var-file=" ++ tfSecretsFile workspace ++
    (if auto_approve then pstr " -auto-approve" else [])

/-- Embedding of `check_and_switch_workspace` (terraform.py lines 55–76),
parametrized by the stdout of `terraform workspace list`.  Each line is
cleaned with `strip("* ").strip()`; if the requested workspace is in the
cleaned list the select command runs (exit 0), otherwise the function
prints a remediation message and raises `SystemExit` (exit 1). -/
def check_and_switch_workspace (workspace : PyStr) (listStdout : PyStr) : TfRun :=
  let existing_workspaces := (splitlines listStdout).map stripWorkspaceLine
  if existing_workspaces.contains workspace then
    ⟨0, [.runCmd tfListCmd, .runCmd (tfSelectCmd workspace)]⟩
  else
    ⟨1, [.runCmd tfListCmd]⟩

/-- Embedding of `plan` (terraform.py lines 79–135): validate the
workspace (exit 1 before any effect when invalid), write the symlink, run
`terraform init`, check and switch the workspace, then run the plan
command. -/
def plan (workspace : PyStr) (reconfigure upgrade : Bool) (listStdout : PyStr) : TfRun :=
  if !is_valid_workspace workspace then ⟨1, []⟩
  else
    let before : List TfEff := [.symlinkWrite, .runCmd (tfInitCmd reconfigure upgrade)]
    let cs := check_and_switch_workspace workspace listStdout
    if cs.exitCode ≠ 0 then ⟨cs.exitCode, before ++ cs.effects⟩
    else ⟨0, before ++ cs.effects ++ [.runCmd (tfPlanCmd workspace)]⟩

/-- Embedding of `apply` (terraform.py lines 138–182): validate the
workspace (exit 1 before any effect when invalid), write the symlink,
check and switch the workspace (no init here — it is commented out in the
source), then run the apply command. -/
def apply (workspace : PyStr) (auto_approve : Bool) (listStdout : PyStr) : TfRun :=
  if !is_valid_workspace workspace then ⟨1, []⟩
  else
    let before : List TfEff := [.symlinkWrite]
    let cs := check_and_switch_workspace workspace listStdout
    if cs.exitCode ≠ 0 then ⟨cs.exitCode, before ++ cs.effects⟩
    else ⟨0, before ++ cs.effects ++ [.runCmd (tfApplyCmd workspace auto_approve)]⟩

/-- Embedding of `destroy` (terraform.py lines 185–225): the source calls
neither `is_valid_workspace` nor `check_and_switch_workspace` — it writes
the symlink and runs `terraform init` and `terraform destroy` for any
workspace string. -/
def destroy (workspace : PyStr) (auto_approve : Bool) : TfRun :=
  ⟨0, [.symlinkWrite, .runCmd (pstr "terraform init"),
       .runCmd (tfDestroyCmd workspace auto_approve)]⟩

/-- The process-global state mutated by `os.chdir`: the current working
directory. -/
structure Proc where
  cwd : PyStr
  deriving DecidableEq

/-- Model of `os.getcwd()`. -/
def getcwd (p : Proc) : PyStr := p.cwd

/-- Model of `os.chdir(directory)`. -/
def chdir (directory : PyStr) (_ : Proc) : Proc := ⟨directory⟩

/-- Embedding of the `change_directory` context manager (terraform.py
lines 33–40): capture the current directory, switch to the target, run
the wrapped block — which threads the process state and either returns a
value or raises — and restore the captured directory in the `finally`
clause, reached on either exit path. -/
def change_directory {E α : Type} (directory : PyStr)
    (block : Proc → Except E α × Proc) (p : Proc) : Except E α × Proc :=
  let prev_dir := getcwd p
  let p1 := chdir directory p
  let r := block p1
  (r.1, chdir prev_dir r.2)

/-- A primitive JSON value returned by the HTTP handlers. -/
inductive JVal
  | num (n : Int)
  | jstr (s : PyStr)
  deriving DecidableEq

/-- A flat JSON object (both handlers return single-level objects). -/
structure Json where
  fields : List (PyStr × JVal)
  deriving DecidableEq

/-- Top-level keys of a JSON object. -/
def topKeys (j : Json) : List PyStr := j.fields.map Prod.fst

/-- Look up a top-level key in a JSON object. -/
def getKey (j : Json) (k : PyStr) : Option JVal :=
  (j.fields.find? fun f => f.1 == k).map Prod.snd

/-- Embedding of the `GET /predict` handler (main.py lines 9–11): with
the two integer query parameters coerced, the handler returns the object
`{"result": x + y}`. -/
def predict (x y : Int) : Json := ⟨[(pstr "result", .num (x + y))]⟩

/-- Model of Python `str.lower` (ASCII). -/
def pyLower (s : PyStr) : PyStr := s.map Char.toLower

/-- The confirmation check `input(...).lower().strip() == "y"` of both
chat-table tasks. -/
def confirmProceed (answer : PyStr) : Bool :=
  pyStripChars isPyWs (pyLower answer) == pstr "y"

/-- The stack name `f"chat-backend-threads-table-{env}"`. -/
def chatStackName (env : PyStr) : PyStr := pstr "chat-backend-threads-table-" ++ env

/-- The environments accepted by the asserts of the two chat-table tasks. -/
def chatEnvs : List PyStr := [pstr "dev", pstr "staging", pstr "production"]

/-- An attempted AWS CLI call of the chat-table tasks, recording whether
the subprocess succeeded or raised `CalledProcessError` (which the source
catches and reports). -/
inductive CfCall
  | createStack (stack_name : PyStr) (ok : Bool)
  | updateStack (stack_name : PyStr) (ok : Bool)
  | updateTerminationProtection (stack_name : PyStr) (ok : Bool)
  deriving DecidableEq

/-- Embedding of `update_chat_table` (cloudformation.py lines 26–85):
assert the environment (a failing assert is `Except.error`), prompt for
confirmation, return normally with no calls unless the lowercased and
stripped answer is `"y"`, and otherwise attempt the update-stack call,
whose failure is caught and reported so the task still returns
normally. -/
def update_chat_table (env answer : PyStr) (updateOk : Bool) :
    Except Unit (List CfCall) :=
  if !chatEnvs.contains env then .error ()
  else
    let stack_name := chatStackName env
    let proceed := confirmProceed answer
    if !proceed then .ok []
    else .ok [.updateStack stack_name updateOk]

/-- Embedding of `create_chat_table` (cloudformation.py lines 88–148):
assert the environment, prompt for confirmation, return normally with no
calls unless the cleaned answer is `"y"`; otherwise attempt the
create-stack call — whose failure is caught and reported — and then
unconditionally attempt the enable-termination-protection call on the
same stack name. -/
def create_chat_table (env answer : PyStr) (createOk protectOk : Bool) :
    Except Unit (List CfCall) :=
  if !chatEnvs.contains env then .error ()
  else
    let stack_name := chatStackName env
    let proceed := confirmProceed answer
    if !proceed then .ok []
    else .ok [.createStack stack_name createOk,
              .updateTerminationProtection stack_name protectOk]

/-! ### Theorems -/

theorem splitCharAux_of_not_mem {sep : Char} {x : PyStr} (h : sep ∉ x) :
    splitCharAux sep x = (x, []) := by
  induction x with
  | nil => rfl
  | cons c cs ih =>
    simp only [List.mem_cons, not_or] at h
    simp [splitCharAux, ih h.2, if_neg (Ne.symm h.1)]

theorem splitCharAux_append {sep : Char} {x : PyStr} (r : PyStr) (h : sep ∉ x) :
    splitCharAux sep (x ++ sep :: r) = (x, splitChar sep r) := by
  induction x with
  | nil => simp [splitCharAux, splitChar]
  | cons c cs ih =>
    simp only [List.mem_cons, not_or] at h
    simp [splitCharAux, ih h.2, if_neg (Ne.symm h.1)]

theorem splitChar_three {x y z : PyStr} (hx : '.' ∉ x) (hy : '.' ∉ y) (hz : '.' ∉ z) :
    splitChar '.' (x ++ '.' :: (y ++ '.' :: z)) = [x, y, z] := by
  simp [splitChar, splitCharAux_append _ hx, splitCharAux_append _ hy,
    splitCharAux_of_not_mem hz]

theorem joinParts_splitChar (sep : Char) (s : PyStr) :
    joinParts sep (splitChar sep s) = s := by
  induction s with
  | nil => rfl
  | cons c cs ih =>
    simp only [splitChar] at ih ⊢
    by_cases h : c = sep
    · subst h
      simp only [splitCharAux, if_pos rfl, joinParts]
      simpa using ih
    · simp only [splitCharAux, if_neg h]
      rcases h2 : (splitCharAux sep cs).2 with _ | ⟨u, us⟩
      · rw [h2] at ih
        simp only [joinParts] at ih ⊢
        simp [ih]
      · rw [h2] at ih
        simp only [joinParts] at ih ⊢
        simp [ih]

theorem isdigit_iff {s : PyStr} :
    isdigit s = true ↔ s ≠ [] ∧ ∀ c ∈ s, pyCharIsDigit c = true := by
  simp [isdigit, List.all_eq_true, List.isEmpty_iff]

theorem pyCharIsDigit_of_isDigit {c : Char} (h : c.isDigit = true) :
    pyCharIsDigit c = true := by
  simp [pyCharIsDigit, pyDecimalVal, h]

theorem isDigit_of_ascii_pyDigit {c : Char} (hlt : c.toNat < 128)
    (h : pyCharIsDigit c = true) : c.isDigit = true := by
  rw [pyCharIsDigit] at h
  simp only [Bool.or_eq_true, beq_iff_eq] at h
  rcases h with ((h | rfl) | rfl) | rfl
  · rw [pyDecimalVal] at h
    split_ifs at h with h1 h2
    · exact h1
    · omega
    · simp at h
  · exact absurd hlt (by decide)
  · exact absurd hlt (by decide)
  · exact absurd hlt (by decide)

theorem ne_dot_of_isDigit {c : Char} (h : c.isDigit = true) : c ≠ '.' := by
  intro hc
  subst hc
  exact absurd h (by decide)

theorem not_dot_mem_of_digits {x : PyStr} (h : ∀ c ∈ x, c.isDigit = true) :
    '.' ∉ x := fun hm => ne_dot_of_isDigit (h _ hm) rfl

theorem digitsVal_go (s : PyStr) (a : Nat) :
    s.foldl (fun a c => 10 * a + digitVal c) a
      = a * 10 ^ s.length + Nat.ofDigits 10 ((s.map digitVal).reverse) := by
  induction s generalizing a with
  | nil => simp [Nat.ofDigits]
  | cons c cs ih =>
    simp only [List.foldl_cons, ih, List.map_cons, List.reverse_cons, List.length_cons]
    rw [Nat.ofDigits_append]
    simp [Nat.ofDigits]
    ring

theorem digitsVal_eq_decVal {s : PyStr} (h : ∀ c ∈ s, c.isDigit = true) :
    digitsVal s = decVal s := by
  have hmap : s.map digitVal = s.map decDigitVal :=
    List.map_congr_left fun c hc => by
      simp [digitVal, decDigitVal, pyDecimalVal, h c hc]
  simpa [digitsVal, decVal, hmap] using digitsVal_go s 0

theorem pyInt_eq_some {s : PyStr} (hs : DigitSeg s) :
    pyInt s = some (decVal s) := by
  have hdec : (!s.isEmpty && s.all fun c => (pyDecimalVal c).isSome) = true := by
    simp only [Bool.and_eq_true, Bool.not_eq_true', List.all_eq_true]
    constructor
    · cases s with
      | nil => exact absurd rfl hs.1
      | cons c cs => rfl
    · intro c hc
      simp [pyDecimalVal, hs.2 c hc]
  rw [pyInt, if_pos hdec, digitsVal_eq_decVal hs.2]

theorem isPrefixOf_v_iff {s : PyStr} :
    (pstr "v").isPrefixOf s = true ↔ ∃ t, s = 'v' :: t := by
  have hv : pstr "v" = ['v'] := rfl
  cases s with
  | nil => simp [hv, List.isPrefixOf]
  | cons c cs =>
    simp only [hv, List.isPrefixOf, Bool.and_true, beq_iff_eq]
    constructor
    · intro h
      exact ⟨cs, by rw [h]⟩
    · rintro ⟨t, ht⟩
      cases ht
      rfl

theorem mem_of_specShape {s : PyStr} (h : SpecVersionShape s) :
    ∀ c ∈ s, c = 'v' ∨ c = '.' ∨ c.isDigit = true := by
  obtain ⟨x, y, z, hx, hy, hz, rfl⟩ := h
  intro c hc
  simp only [List.mem_cons, List.mem_append] at hc
  rcases hc with rfl | (hc | (rfl | (hc | (rfl | hc))))
  · exact Or.inl rfl
  · exact Or.inr (Or.inr (hx.2 c hc))
  · exact Or.inr (Or.inl rfl)
  · exact Or.inr (Or.inr (hy.2 c hc))
  · exact Or.inr (Or.inl rfl)
  · exact Or.inr (Or.inr (hz.2 c hc))

/-- Claim C3 (counterexample): Python `str.isdigit` also accepts Unicode
digit characters, so the source accepts `"v³.0.0"` although the
superscript `'³'` is not a decimal digit and the string is not of the
claimed shape; `int` then rejects the segment, so `parse_tag` raises. -/
theorem validate_version_unicode_ce :
    validate_version (pstr "v³.0.0") = true ∧
    ¬ SpecVersionShape (pstr "v³.0.0") ∧
    parse_tag (pstr "v³.0.0") = none := by
  refine ⟨by decide, fun h => ?_, by decide⟩
  have := mem_of_specShape h '³' (by decide)
  revert this
  decide

/-- Claim C3 (amended): `validate_version` returns true on every string
of shape `v<digits>.<digits>.<digits>` over the ASCII decimal digits, and
on every such string `parse_tag` yields the three non-negative integers
denoted by the segments; conversely every ASCII string accepted by
`validate_version` has that shape — the universal negative holds on ASCII
strings, but not beyond, since Python `str.isdigit` also accepts Unicode
digit characters such as the superscript `'³'`. -/
theorem validate_version_spec (s : PyStr) :
    (SpecVersionShape s → validate_version s = true) ∧
    ((∀ c ∈ s, c.toNat < 128) → validate_version s = true → SpecVersionShape s) ∧
    (∀ x y z : PyStr, DigitSeg x → DigitSeg y → DigitSeg z →
        s = 'v' :: (x ++ '.' :: (y ++ '.' :: z)) →
        parse_tag s = some [decVal x, decVal y, decVal z]) := by
  refine ⟨?_, ?_, ?_⟩
  · rintro ⟨x, y, z, hx, hy, hz, rfl⟩
    have hpx : (pstr "v").isPrefixOf ('v' :: (x ++ '.' :: (y ++ '.' :: z))) = true :=
      isPrefixOf_v_iff.mpr ⟨_, rfl⟩
    rw [validate_version]
    simp only [hpx, Bool.not_true, Bool.false_eq_true, if_false,
      List.drop_succ_cons, List.drop_zero]
    rw [splitChar_three (not_dot_mem_of_digits hx.2) (not_dot_mem_of_digits hy.2)
      (not_dot_mem_of_digits hz.2)]
    have hseg : ∀ {w : PyStr}, DigitSeg w → isdigit w = true := fun hw =>
      isdigit_iff.mpr ⟨hw.1, fun c hc => pyCharIsDigit_of_isDigit (hw.2 c hc)⟩
    simp [hseg hx, hseg hy, hseg hz]
  · intro hascii h
    rw [validate_version] at h
    by_cases hp : (pstr "v").isPrefixOf s = true
    · simp only [hp, Bool.not_true, Bool.false_eq_true, if_false, ite_not] at h
      obtain ⟨t, rfl⟩ := isPrefixOf_v_iff.mp hp
      simp only [List.drop_succ_cons, List.drop_zero] at h
      by_cases hl : (splitChar '.' t).length = 3
      · obtain ⟨x, y, z, hxyz⟩ := List.length_eq_three.mp hl
        have hall : (splitChar '.' t).all isdigit = true := by
          simpa [hl] using h
        rw [hxyz] at hall
        simp only [List.all_cons, List.all_nil, Bool.and_true, Bool.and_eq_true] at hall
        have ht : t = x ++ '.' :: (y ++ '.' :: z) := by
          have := joinParts_splitChar '.' t
          rw [hxyz] at this
          simpa [joinParts] using this.symm
        have hmx : ∀ c ∈ x, c ∈ t := fun c hc => by
          rw [ht]; exact List.mem_append_left _ hc
        have hmy : ∀ c ∈ y, c ∈ t := fun c hc => by
          rw [ht]
          exact List.mem_append_right _
            (List.mem_cons_of_mem _ (List.mem_append_left _ hc))
        have hmz : ∀ c ∈ z, c ∈ t := fun c hc => by
          rw [ht]
          exact List.mem_append_right _ (List.mem_cons_of_mem _
            (List.mem_append_right _ (List.mem_cons_of_mem _ hc)))
        have hseg : ∀ {w : PyStr}, isdigit w = true → (∀ c ∈ w, c ∈ t) → DigitSeg w :=
          fun hw hmem =>
            ⟨(isdigit_iff.mp hw).1, fun c hc =>
              isDigit_of_ascii_pyDigit
                (hascii c (List.mem_cons_of_mem _ (hmem c hc)))
                ((isdigit_iff.mp hw).2 c hc)⟩
        exact ⟨x, y, z, hseg hall.1 hmx, hseg hall.2.1 hmy, hseg hall.2.2 hmz,
          by rw [ht]⟩
      · simp [hl] at h
    · simp only [Bool.not_eq_true] at hp
      simp [hp] at h
  · rintro x y z hx hy hz rfl
    rw [parse_tag]
    simp only [List.drop_succ_cons, List.drop_zero]
    rw [splitChar_three (not_dot_mem_of_digits hx.2) (not_dot_mem_of_digits hy.2)
      (not_dot_mem_of_digits hz.2)]
    simp [List.mapM, List.mapM.loop,
      pyInt_eq_some hx, pyInt_eq_some hy, pyInt_eq_some hz]

/-- Witness for claim C3 at the concrete ASCII string `"v10.2.003"`,
exercising all three parts of the theorem. -/
theorem validate_version_spec_witness :
    validate_version (pstr "v10.2.003") = true ∧
    SpecVersionShape (pstr "v10.2.003") ∧
    parse_tag (pstr "v10.2.003") =
      some [decVal (pstr "10"), decVal (pstr "2"), decVal (pstr "003")] :=
  ⟨(validate_version_spec (pstr "v10.2.003")).1
      ⟨pstr "10", pstr "2", pstr "003", ⟨by decide, by decide⟩,
        ⟨by decide, by decide⟩, ⟨by decide, by decide⟩, by decide⟩,
   (validate_version_spec (pstr "v10.2.003")).2.1 (by decide) (by decide),
   (validate_version_spec (pstr "v10.2.003")).2.2 (pstr "10") (pstr "2") (pstr "003")
      ⟨by decide, by decide⟩ ⟨by decide, by decide⟩ ⟨by decide, by decide⟩ (by decide)⟩

theorem pyTupleLe_false_iff (a b c d e f : Nat) :
    pyTupleLe [a, b, c] [d, e, f] = false ↔ specLexGt (a, b, c) (d, e, f) := by
  simp only [pyTupleLe, specLexGt]
  split_ifs <;> simp_all <;> omega

/-- Claim C2: when a last published version exists, `push` publishes the
requested version if and only if its parsed triple is strictly greater
than the last version's triple in lexicographic tuple order, and in the
not-strictly-greater case it makes none of the login, tag, or push
external calls. -/
theorem push_publishes_iff_gt (version : PyStr) (il : List ImageDetail)
    (a b c d e f : Nat)
    (hvalid : validate_version version = true)
    (hparse : parse_tag version = some [a, b, c])
    (hlast : get_last_version il = .ok (some [d, e, f])) :
    ((push version il).toOption = some ⟨0, publishCalls, true⟩ ↔
        specLexGt (a, b, c) (d, e, f)) ∧
    (¬ specLexGt (a, b, c) (d, e, f) → push version il = .ok ⟨0, [], false⟩) := by
  have hpush : push version il =
      if pyTupleLe [a, b, c] [d, e, f] then .ok ⟨0, [], false⟩
      else .ok ⟨0, publishCalls, true⟩ := by
    simp [push, hvalid, hparse, hlast]
  cases hle : pyTupleLe [a, b, c] [d, e, f] with
  | true =>
    have hgt : ¬ specLexGt (a, b, c) (d, e, f) := by
      intro hg
      have hf := (pyTupleLe_false_iff a b c d e f).mpr hg
      rw [hle] at hf
      simp at hf
    constructor
    · rw [hpush]
      simp [hle, Except.toOption, publishCalls, hgt]
    · intro _
      rw [hpush]
      simp [hle]
  | false =>
    have hgt : specLexGt (a, b, c) (d, e, f) := (pyTupleLe_false_iff a b c d e f).mp hle
    refine ⟨?_, fun h => absurd hgt h⟩
    rw [hpush]
    simp [hle, Except.toOption, hgt]

/-- Witness for claim C2: pushing `v1.2.3` over last version `v1.2.2`
publishes with all three external calls. -/
theorem push_publishes_iff_gt_witness :
    (push (pstr "v1.2.3") [⟨[pstr "v1.2.2"]⟩]).toOption =
      some ⟨0, publishCalls, true⟩ :=
  (push_publishes_iff_gt (pstr "v1.2.3") [⟨[pstr "v1.2.2"]⟩] 1 2 3 1 2 2
      (by decide) (by decide) (by decide)).1.mpr (by decide)

/-- Claim C4 (code bug): with a registry state holding one image that has
no tags, no prior published version exists, yet `push` of the valid
version `v1.0.0` does not proceed to publication: `get_last_version`
evaluates `version_list[-1]` on an empty list and the task dies with an
uncaught `IndexError` instead. -/
theorem push_untagged_images_raises :
    validate_version (pstr "v1.0.0") = true ∧
    get_last_version [⟨[]⟩] = .error .indexError ∧
    push (pstr "v1.0.0") [⟨[]⟩] = .error (.uncaught .indexError) := by decide

/-- Claim C5 (counterexample): pushing `v1.0.0` when `v1.0.0` is already
the last published version is a validation failure per the spec, yet the
task returns normally — exit code 0 — after printing its error message. -/
theorem push_not_greater_exits_zero :
    push (pstr "v1.0.0") [⟨[pstr "v1.0.0"]⟩] = .ok ⟨0, [], false⟩ := by decide

/-- Claim C5 (amended): `push` raises `AssertionError` — which the runner
turns into a non-zero exit — when the version string fails format
validation, but when the version is well-formed and not strictly greater
than the last published version the task prints an error and returns
normally: exit code 0, no external calls, nothing published. -/
theorem push_exit_codes (version : PyStr) (il : List ImageDetail) :
    (validate_version version = false → push version il = .error .assertionError) ∧
    (∀ t lv, validate_version version = true → parse_tag version = some t →
        get_last_version il = .ok (some lv) → pyTupleLe t lv = true →
        push version il = .ok ⟨0, [], false⟩) := by
  constructor
  · intro h
    simp [push, h]
  · intro t lv hv hp hl hle
    simp [push, hv, hp, hl, hle]

/-- Witness for claim C5 at the concrete inputs `"vx"` (malformed) and
`v1.2.3` against last version `v2.0.0` (not strictly greater). -/
theorem push_exit_codes_witness :
    push (pstr "vx") [] = .error .assertionError ∧
    push (pstr "v1.2.3") [⟨[pstr "v2.0.0"]⟩] = .ok ⟨0, [], false⟩ :=
  ⟨(push_exit_codes (pstr "vx") []).1 (by decide),
   (push_exit_codes (pstr "v1.2.3") [⟨[pstr "v2.0.0"]⟩]).2 [1, 2, 3] [2, 0, 0]
      (by decide) (by decide) (by decide) (by decide)⟩

/-- Claim C1 (counterexample): the workspace name `"bogus"` is outside
{dev, staging, production}, yet `destroy` does not halt: it returns with
exit code 0 after attempting the symlink filesystem mutation and the
terraform external calls. -/
theorem destroy_skips_validation :
    is_valid_workspace (pstr "bogus") = false ∧
    (destroy (pstr "bogus") false).exitCode = 0 ∧
    (destroy (pstr "bogus") false).effects =
      [.symlinkWrite, .runCmd (pstr "terraform init"),
       .runCmd (tfDestroyCmd (pstr "bogus") false)] := by
  refine ⟨by decide, rfl, rfl⟩

/-- Claim C1 (amended): for every workspace name outside
{dev, staging, production}, `plan` and `apply` halt with exit code 1
before any external-process call or filesystem mutation; `destroy`
performs no workspace validation at all and always proceeds to the
symlink write, `terraform init`, and `terraform destroy`, exiting 0. -/
theorem invalid_workspace_halts (w : PyStr) (reconfigure upgrade aa : Bool)
    (out1 out2 : PyStr) (h : is_valid_workspace w = false) :
    plan w reconfigure upgrade out1 = ⟨1, []⟩ ∧
    apply w aa out2 = ⟨1, []⟩ ∧
    destroy w aa =
      ⟨0, [.symlinkWrite, .runCmd (pstr "terraform init"),
           .runCmd (tfDestroyCmd w aa)]⟩ := by
  refine ⟨?_, ?_, rfl⟩ <;> simp [plan, apply, h]

/-- Witness for claim C1 at the concrete invalid workspace `"bogus"`. -/
theorem invalid_workspace_halts_witness :
    plan (pstr "bogus") true false (pstr "* default\n  dev\n") = ⟨1, []⟩ ∧
    apply (pstr "bogus") true (pstr "* default\n  dev\n") = ⟨1, []⟩ ∧
    destroy (pstr "bogus") true =
      ⟨0, [.symlinkWrite, .runCmd (pstr "terraform init"),
           .runCmd (tfDestroyCmd (pstr "bogus") true)]⟩ :=
  invalid_workspace_halts _ _ _ _ _ _ (by decide)

theorem dropWhile_eq_self_of_all {p : Char → Bool} {s : PyStr}
    (h : ∀ c ∈ s, p c = false) : s.dropWhile p = s := by
  cases s with
  | nil => rfl
  | cons c cs => simp [List.dropWhile_cons, h c (List.mem_cons_self _ _)]

theorem pyStripChars_eq_self {p : Char → Bool} {s : PyStr}
    (h : ∀ c ∈ s, p c = false) : pyStripChars p s = s := by
  rw [pyStripChars, dropWhile_eq_self_of_all h,
    dropWhile_eq_self_of_all (fun c hc => h c (List.mem_reverse.mp hc)),
    List.reverse_reverse]

theorem stripWorkspaceLine_marker {name : PyStr}
    (h : ∀ c ∈ name, isStripMark c = false ∧ isPyWs c = false) :
    stripWorkspaceLine ('*' :: ' ' :: name) = name := by
  rw [stripWorkspaceLine]
  have h1 : pyStripChars isStripMark ('*' :: ' ' :: name) = name := by
    rw [pyStripChars]
    have h2 : ('*' :: ' ' :: name).dropWhile isStripMark = name.dropWhile isStripMark := by
      simp [List.dropWhile_cons, isStripMark]
    rw [h2, dropWhile_eq_self_of_all (fun c hc => (h c hc).1),
      dropWhile_eq_self_of_all (fun c hc => (h c (List.mem_reverse.mp hc)).1),
      List.reverse_reverse]
  rw [h1, pyStripChars_eq_self (fun c hc => (h c hc).2)]

theorem take_new_cmd (args : PyStr) :
    (pstr "terraform workspace new " ++ args).take 21 = pstr "terraform workspace n" := by
  rw [List.take_append_of_le_length (by decide)]
  decide

theorem runCmd_ne_new {c : PyStr} (hc : c.take 21 ≠ pstr "terraform workspace n")
    (args : PyStr) :
    TfEff.runCmd c ≠ .runCmd (pstr "terraform workspace new " ++ args) := by
  intro h
  apply hc
  rw [TfEff.runCmd.inj h]
  exact take_new_cmd args

theorem tfSelectCmd_take (workspace : PyStr) :
    (tfSelectCmd workspace).take 21 = pstr "terraform workspace s" := by
  rw [tfSelectCmd, List.take_append_of_le_length (by decide)]
  decide

theorem check_and_switch_effects (workspace listStdout : PyStr) :
    (check_and_switch_workspace workspace listStdout).effects =
      [.runCmd tfListCmd, .runCmd (tfSelectCmd workspace)] ∨
    (check_and_switch_workspace workspace listStdout).effects = [.runCmd tfListCmd] := by
  rw [check_and_switch_workspace]
  split
  · exact Or.inl rfl
  · exact Or.inr rfl

/-- Claim C6: `check_and_switch_workspace` queries `terraform workspace
list`, cleans each output line — in particular a leading `"* "`
current-workspace marker is stripped before comparison — and then: if the
requested name is in the cleaned list it runs the workspace-select
command, otherwise it raises a fatal `SystemExit` (exit 1) after the
remediation message; and on no input does it run `terraform workspace
new`. -/
theorem check_and_switch_spec (workspace listStdout : PyStr) :
    ((((splitlines listStdout).map stripWorkspaceLine).contains workspace = true →
        check_and_switch_workspace workspace listStdout =
          ⟨0, [.runCmd tfListCmd, .runCmd (tfSelectCmd workspace)]⟩) ∧
      (((splitlines listStdout).map stripWorkspaceLine).contains workspace = false →
        check_and_switch_workspace workspace listStdout = ⟨1, [.runCmd tfListCmd]⟩)) ∧
    (∀ name : PyStr, (∀ c ∈ name, isStripMark c = false ∧ isPyWs c = false) →
        stripWorkspaceLine ('*' :: ' ' :: name) = name) ∧
    (∀ e ∈ (check_and_switch_workspace workspace listStdout).effects,
        ∀ args : PyStr, e ≠ .runCmd (pstr "terraform workspace new " ++ args)) := by
  refine ⟨⟨fun h => ?_, fun h => ?_⟩,
          fun name h => stripWorkspaceLine_marker h, ?_⟩
  · simp only [check_and_switch_workspace]
    rw [h]
    simp
  · simp only [check_and_switch_workspace]
    rw [h]
    simp
  · intro e he args
    rcases check_and_switch_effects workspace listStdout with hf | hf
    · rw [hf] at he
      simp only [List.mem_cons, List.not_mem_nil, or_false] at he
      rcases he with rfl | rfl
      · exact runCmd_ne_new (by decide) args
      · refine runCmd_ne_new ?_ args
        rw [tfSelectCmd_take]
        decide
    · rw [hf] at he
      simp only [List.mem_cons, List.not_mem_nil, or_false] at he
      rcases he with rfl
      exact runCmd_ne_new (by decide) args

/-- Witness for claim C6 on concrete `terraform workspace list` output
containing a marked current workspace. -/
theorem check_and_switch_spec_witness :
    check_and_switch_workspace (pstr "dev") (pstr "  default\n* dev\n  staging\n") =
      ⟨0, [.runCmd tfListCmd, .runCmd (tfSelectCmd (pstr "dev"))]⟩ :=
  (check_and_switch_spec (pstr "dev") (pstr "  default\n* dev\n  staging\n")).1.1
    (by decide)

/-- Claim C7: for every target directory and every wrapped block,
`change_directory` leaves the working directory equal to its value
captured on entry, on both exit paths of the block — normal completion
and a raised exception — while passing the block's outcome through. -/
theorem change_directory_restores {E α : Type} (directory : PyStr)
    (block : Proc → Except E α × Proc) (p : Proc) :
    getcwd (change_directory directory block p).2 = getcwd p ∧
    (∀ a q, block (chdir directory p) = (.ok a, q) →
        change_directory directory block p = (.ok a, chdir (getcwd p) q)) ∧
    (∀ e q, block (chdir directory p) = (.error e, q) →
        change_directory directory block p = (.error e, chdir (getcwd p) q)) := by
  refine ⟨rfl, ?_, ?_⟩ <;> intro x q hx <;> simp [change_directory, hx]

/-- Witness for claim C7: a block that moves to a third directory and
returns, and one that moves and raises; both end back at `"/home"`. -/
theorem change_directory_restores_witness :
    change_directory (pstr "/infra")
        (fun pr => ((Except.ok 7 : Except Unit Nat), chdir (pstr "/elsewhere") pr))
        ⟨pstr "/home"⟩ =
      (.ok 7, chdir (getcwd ⟨pstr "/home"⟩)
        (chdir (pstr "/elsewhere") (chdir (pstr "/infra") ⟨pstr "/home"⟩))) ∧
    change_directory (pstr "/infra")
        (fun pr => ((Except.error () : Except Unit Nat), chdir (pstr "/elsewhere") pr))
        ⟨pstr "/home"⟩ =
      (.error (), chdir (getcwd ⟨pstr "/home"⟩)
        (chdir (pstr "/elsewhere") (chdir (pstr "/infra") ⟨pstr "/home"⟩))) :=
  ⟨(change_directory_restores _ _ _).2.1 7 _ rfl,
   (change_directory_restores _ _ _).2.2 () _ rfl⟩

/-- Claim C8: for every pair of integers, the `/predict` handler returns
the JSON object `{"result": x + y}` with `"result"` as its only top-level
key; in particular `x=2, y=3` yields `{"result": 5}` and `x=-1, y=1`
yields `{"result": 0}`. -/
theorem predict_spec :
    (∀ x y : Int, topKeys (predict x y) = [pstr "result"] ∧
        getKey (predict x y) (pstr "result") = some (.num (x + y))) ∧
    predict 2 3 = ⟨[(pstr "result", .num 5)]⟩ ∧
    predict (-1) 1 = ⟨[(pstr "result", .num 0)]⟩ := by
  refine ⟨fun x y => ⟨rfl, ?_⟩, rfl, rfl⟩
  simp [getKey, List.find?]

/-- Claim C9: in both chat-table tasks, with a valid environment, every
prompt answer whose lowercased and stripped form differs from `"y"` makes
the command return normally — not an error — before any cloud-mutating
call is attempted, and the answer `"y"` makes the mutating call be
attempted. -/
theorem confirmation_gate (env answer : PyStr) (b1 b2 b3 : Bool)
    (henv : chatEnvs.contains env = true) :
    (confirmProceed answer = false →
        create_chat_table env answer b1 b2 = .ok [] ∧
        update_chat_table env answer b3 = .ok []) ∧
    (confirmProceed answer = true →
        create_chat_table env answer b1 b2 =
          .ok [.createStack (chatStackName env) b1,
               .updateTerminationProtection (chatStackName env) b2] ∧
        update_chat_table env answer b3 =
          .ok [.updateStack (chatStackName env) b3]) := by
  refine ⟨fun h => ⟨?_, ?_⟩, fun h => ⟨?_, ?_⟩⟩
  · simp only [create_chat_table]
    rw [henv, h]
    simp
  · simp only [update_chat_table]
    rw [henv, h]
    simp
  · simp only [create_chat_table]
    rw [henv, h]
    simp
  · simp only [update_chat_table]
    rw [henv, h]
    simp

/-- Witness for claim C9: the declined answer `" No "` on environment
`dev` aborts both tasks with no calls. -/
theorem confirmation_gate_witness :
    create_chat_table (pstr "dev") (pstr " No ") true true = .ok [] ∧
    update_chat_table (pstr "dev") (pstr " No ") false = .ok [] :=
  (confirmation_gate (pstr "dev") (pstr " No ") true true false (by decide)).1
    (by decide)

/-- Claim C10: in `create_chat_table`, a failing stack-creation call is
caught and reported but execution does not halt: on both the success and
the failure branch of stack creation, the enable-termination-protection
call on the stack name is attempted next. -/
theorem create_continues_after_failure (env answer : PyStr) (protectOk : Bool)
    (henv : chatEnvs.contains env = true)
    (hyes : confirmProceed answer = true) :
    ∀ createOk : Bool,
      create_chat_table env answer createOk protectOk =
        .ok [.createStack (chatStackName env) createOk,
             .updateTerminationProtection (chatStackName env) protectOk] := by
  intro createOk
  simp only [create_chat_table]
  rw [henv, hyes]
  simp

/-- Witness for claim C10: on environment `staging` with answer `"Y"`,
even a failing creation is followed by the termination-protection call. -/
theorem create_continues_after_failure_witness :
    create_chat_table (pstr "staging") (pstr "Y") false true =
      .ok [.createStack (chatStackName (pstr "staging")) false,
           .updateTerminationProtection (chatStackName (pstr "staging")) true] :=
  create_continues_after_failure (pstr "staging") (pstr "Y") true
    (by decide) (by decide) false

end FastApiTest
